import Mathlib

/-!
Verification of the marshalling bridge in `src/src/graph/graph_bind.cc`
(graph-tool core binding module).

The bridge converts host (Python) values to and from native (C++) values:
`vector_from_list` (host sequence → `std::vector`), the indexing-suite
export of vectors back to the host, `pair_from_tuple`, `variant_from_python`
(tagged-union probing through the converter registry), the exception
translator `graph_exception_translator`, the zero-copy numpy export
`get_array`, and the process-wide pickler slots `set_pickler` /
`set_unpickler`.

Host values are embedded as an inductive `PyObj`; a registered value type
is a pair of an extraction function (the model of `boost::python::extract`,
with `Option` for failure) and an injection back to host values.  Fallible
operations return `Option` (an escaped host exception) or `Except` (the
outcome of a registry conversion).
-/

set_option autoImplicit false

/-- The native degree selector enumeration `GraphInterface::degree_t`
(`IN_DEGREE`, `OUT_DEGREE`, `TOTAL_DEGREE`), exported to the host as the
`Degree` enum. -/
inductive Degree where
  | inDeg
  | outDeg
  | totalDeg
  deriving DecidableEq

/-- A host (Python) value, as seen by the bridge: numeric scalars, strings,
booleans, `None`, positional sequences (tuples and lists), a wrapped
`Degree` enum value, and a wrapped `boost::any` instance (its payload
abstracted to a tag). -/
inductive PyObj where
  | int (n : Int)
  | str (s : String)
  | bool (b : Bool)
  | none
  | tuple (xs : List PyObj)
  | list (xs : List PyObj)
  | degree (d : Degree)
  | anyObj (tag : Nat)

/-- A Registered Value Type `T`: `extract` models
`boost::python::extract<T>` (`Option.none` when `check()` would fail), and
`inject` models the to-python conversion of a native `T` used when the
indexing suite hands an element back to the host. -/
structure RegType (α : Type) where
  extract : PyObj → Option α
  inject : α → PyObj

/-- `extract<T>(o).check()`. -/
def RegType.check {α : Type} (E : RegType α) (o : PyObj) : Bool :=
  (E.extract o).isSome

/-- The registered value type `int` (a numeric scalar). -/
def intReg : RegType Int where
  extract o := match o with
    | PyObj.int n => some n
    | _ => Option.none
  inject n := PyObj.int n

/-- The registered value type `std::string`. -/
def strReg : RegType String where
  extract o := match o with
    | PyObj.str s => some s
    | _ => Option.none
  inject s := PyObj.str s

/-- The registered value type `size_t` (non-negative integers only). -/
def sizeTReg : RegType Nat where
  extract o := match o with
    | PyObj.int n => if n < 0 then Option.none else some n.toNat
    | _ => Option.none
  inject n := PyObj.int (Int.ofNat n)

/-- The registered class `boost::any` (`class_<boost::any>("any")`):
extraction succeeds only on a host object wrapping a native `boost::any`. -/
def anyReg : RegType Nat where
  extract o := match o with
    | PyObj.anyObj tag => some tag
    | _ => Option.none
  inject tag := PyObj.anyObj tag

/-- The registered enum `GraphInterface::degree_t`
(`enum_<GraphInterface::degree_t>("Degree")`). -/
def degreeReg : RegType Degree where
  extract o := match o with
    | PyObj.degree d => some d
    | _ => Option.none
  inject d := PyObj.degree d

/-- Outcome channel of a registry conversion: `typeConversion` is the
host-visible TypeError raised when no registered converter accepts the
value; `escapedException` is a host exception (e.g. an index error raised
by `o[1]` inside a converter) that escapes the converter and aborts the
conversion machinery itself. -/
inductive BridgeError where
  | typeConversion
  | escapedException
  deriving DecidableEq

/-! ### Sequence adapter: `vector_from_list` (graph_bind.cc lines 60-99) -/

/-- `vector_from_list<T>::convertible`: walks the host sequence in order
and rejects as soon as one element fails `extract<T>(o[i]).check()`;
accepts only if every element passes. -/
def vector_from_list_convertible {α : Type} (E : RegType α) (S : List PyObj) : Bool :=
  S.all (fun o => E.check o)

/-- `vector_from_list<T>::construct`: extracts each element in order and
pushes it onto the result vector; `Option.none` models the host exception
thrown if an extraction fails (only reachable when called without a prior
successful `convertible`). -/
def vector_from_list_construct {α : Type} (E : RegType α) : List PyObj → Option (List α)
  | [] => some []
  | o :: rest =>
    match E.extract o, vector_from_list_construct E rest with
    | some a, some v => some (a :: v)
    | _, _ => Option.none

/-- The full registry conversion of a host sequence to `vector<T>`: the
registry probes `vector_from_list<T>::convertible` and, on acceptance,
runs `construct`; if the converter rejects, no other converter is
registered for `vector<T>` and the conversion fails with TypeConversion. -/
def vector_fromHost {α : Type} (E : RegType α) (S : List PyObj) : Except BridgeError (List α) :=
  if vector_from_list_convertible E S then
    match vector_from_list_construct E S with
    | some v => Except.ok v
    | Option.none => Except.error BridgeError.escapedException
  else
    Except.error BridgeError.typeConversion

/-- Reading the whole wrapped vector back through the indexing suite
(`vector_indexing_suite`, external library): each native element is
converted to a host value in order. -/
def vector_toHost {α : Type} (E : RegType α) (v : List α) : List PyObj :=
  v.map E.inject

/-! ### Vector equality: `vector_equal_compare` / `vector_nequal_compare`
(graph_bind.cc lines 101-120) -/

/-- The index loop of `vector_equal_compare`: for `i` from the given start
below `v1.size()`, return `false` as soon as `v1[i] != v2[i]`. -/
def vector_equal_loop {α : Type} [DecidableEq α] (v1 v2 : List α) (i : Nat) : Bool :=
  if _h : i < v1.length then
    if v1.get? i ≠ v2.get? i then false
    else vector_equal_loop v1 v2 (i + 1)
  else
    true
termination_by v1.length - i

/-- `vector_equal_compare<T>(v1, v2)`: `false` when the sizes differ,
otherwise the elementwise loop starting at index 0. -/
def vector_equal_compare {α : Type} [DecidableEq α] (v1 v2 : List α) : Bool :=
  if v1.length ≠ v2.length then false
  else vector_equal_loop v1 v2 0

/-- `vector_nequal_compare<T>(v1, v2) = !vector_equal_compare<T>(v1, v2)`. -/
def vector_nequal_compare {α : Type} [DecidableEq α] (v1 v2 : List α) : Bool :=
  !vector_equal_compare v1 v2

lemma vector_equal_loop_iff {α : Type} [DecidableEq α] (v1 v2 : List α) :
    ∀ (k i : Nat), v1.length - i = k →
      (vector_equal_loop v1 v2 i = true ↔
        ∀ j, i ≤ j → j < v1.length → v1.get? j = v2.get? j) := by
  intro k
  induction k with
  | zero =>
    intro i hk
    have hge : v1.length ≤ i := Nat.le_of_sub_eq_zero hk
    rw [vector_equal_loop]
    rw [dif_neg (Nat.not_lt.mpr hge)]
    constructor
    · intro _ j hij hj
      exact absurd (Nat.lt_of_le_of_lt hij hj) (Nat.not_lt.mpr hge)
    · intro _
      rfl
  | succ k ih =>
    intro i hk
    have hlt : i < v1.length := by omega
    rw [vector_equal_loop]
    simp only [dif_pos hlt]
    by_cases heq : v1.get? i = v2.get? i
    · rw [if_neg (not_not_intro heq)]
      have hrec := ih (i + 1) (by omega)
      constructor
      · intro hloop j hij hj
        rcases Nat.eq_or_lt_of_le hij with h | h
        · exact h ▸ heq
        · exact (hrec.mp hloop) j h hj
      · intro hall
        exact hrec.mpr (fun j hij hj => hall j (Nat.le_of_succ_le hij) hj)
    · rw [if_pos heq]
      constructor
      · intro hfalse
        exact absurd hfalse (by simp)
      · intro hall
        exact absurd (hall i (Nat.le_refl i) hlt) heq

/-- C7: `equals(a, b)` is true iff `a` and `b` have the same length and all
their elements are pairwise equal. -/
theorem vector_equal_compare_iff {α : Type} [DecidableEq α] (v1 v2 : List α) :
    vector_equal_compare v1 v2 = true ↔
      (v1.length = v2.length ∧ ∀ i, i < v1.length → v1.get? i = v2.get? i) := by
  unfold vector_equal_compare
  by_cases hlen : v1.length = v2.length
  · rw [if_neg (not_not_intro hlen)]
    rw [vector_equal_loop_iff v1 v2 (v1.length - 0) 0 rfl]
    constructor
    · intro hall
      exact ⟨hlen, fun i hi => hall i (Nat.zero_le i) hi⟩
    · intro ⟨_, hall⟩ j _ hj
      exact hall j hj
  · rw [if_pos hlen]
    constructor
    · intro hfalse
      exact absurd hfalse (by simp)
    · intro ⟨h, _⟩
      exact absurd h hlen

/-- C8: `notEquals(a, b)` is the logical negation of `equals(a, b)`. -/
theorem vector_nequal_compare_eq_not {α : Type} [DecidableEq α] (v1 v2 : List α) :
    vector_nequal_compare v1 v2 = !vector_equal_compare v1 v2 :=
  rfl

lemma intReg_round_trips : ∀ o a, intReg.extract o = some a → intReg.inject a = o := by
  intro o a h
  cases o <;> simp_all [intReg]

lemma vector_construct_spec {α : Type} (E : RegType α)
    (hE : ∀ o a, E.extract o = some a → E.inject a = o) :
    ∀ S : List PyObj, (∀ o ∈ S, E.check o = true) →
      ∃ v, vector_from_list_construct E S = some v ∧ v.map E.inject = S ∧
        v.length = S.length := by
  intro S hS
  induction S with
  | nil => exact ⟨[], rfl, rfl, rfl⟩
  | cons o rest ih =>
    have ho : (E.extract o).isSome := hS o (List.mem_cons_self o rest)
    obtain ⟨a, ha⟩ := Option.isSome_iff_exists.mp ho
    obtain ⟨v, hv, hmap, hlen⟩ := ih (fun x hx => hS x (List.mem_cons_of_mem o hx))
    refine ⟨a :: v, ?_, ?_, ?_⟩
    · simp [vector_from_list_construct, ha, hv]
    · simp [hE o a ha, hmap]
    · simp [hlen]

/-- C1: for every registered element type and every host sequence whose
elements all pass the element check, converting through
`vector_from_list` and reading the result back through the indexing suite
yields the original sequence, with length and order preserved. -/
theorem vector_round_trip {α : Type} (E : RegType α)
    (hE : ∀ o a, E.extract o = some a → E.inject a = o)
    (S : List PyObj) (hS : ∀ o ∈ S, E.check o = true) :
    ∃ v, vector_fromHost E S = Except.ok v ∧ vector_toHost E v = S ∧
      v.length = S.length := by
  obtain ⟨v, hv, hmap, hlen⟩ := vector_construct_spec E hE S hS
  have hconv : vector_from_list_convertible E S = true := by
    unfold vector_from_list_convertible
    exact List.all_eq_true.mpr (fun o ho => hS o ho)
  refine ⟨v, ?_, hmap, hlen⟩
  simp [vector_fromHost, hconv, hv]

/-- Witness for C1 at a concrete input: the host sequence `[1, 2, 3]`
against element type `int`. -/
theorem vector_round_trip_witness :
    (∀ o a, intReg.extract o = some a → intReg.inject a = o) ∧
    (∀ o ∈ [PyObj.int 1, PyObj.int 2, PyObj.int 3], intReg.check o = true) ∧
    (∃ v, vector_fromHost intReg [PyObj.int 1, PyObj.int 2, PyObj.int 3] = Except.ok v ∧
      vector_toHost intReg v = [PyObj.int 1, PyObj.int 2, PyObj.int 3] ∧
      v.length = [PyObj.int 1, PyObj.int 2, PyObj.int 3].length) :=
  ⟨intReg_round_trips, by simp [RegType.check, intReg],
   vector_round_trip intReg intReg_round_trips _ (by simp [RegType.check, intReg])⟩

/-- C5: a host sequence with at least one element failing the element
check is rejected by `vector_from_list::convertible` and the conversion
fails with TypeConversion, producing no native vector at all. -/
theorem vector_mixed_rejected {α : Type} (E : RegType α) (S : List PyObj)
    (h : ∃ o ∈ S, E.check o = false) :
    vector_fromHost E S = Except.error BridgeError.typeConversion ∧
    vector_from_list_convertible E S = false := by
  obtain ⟨o, ho, hfail⟩ := h
  have hconv : vector_from_list_convertible E S = false := by
    unfold vector_from_list_convertible
    exact List.all_eq_false.mpr ⟨o, ho, by simp [hfail]⟩
  refine ⟨?_, hconv⟩
  simp [vector_fromHost, hconv]

/-- Witness for C5 at a concrete input: the mixed host sequence
`[1, "x"]` against element type `int`. -/
theorem vector_mixed_rejected_witness :
    (∃ o ∈ [PyObj.int 1, PyObj.str "x"], intReg.check o = false) ∧
    (vector_fromHost intReg [PyObj.int 1, PyObj.str "x"] =
        Except.error BridgeError.typeConversion ∧
      vector_from_list_convertible intReg [PyObj.int 1, PyObj.str "x"] = false) :=
  ⟨⟨PyObj.str "x", List.mem_cons_of_mem _ (List.mem_cons_self _ _), rfl⟩,
   vector_mixed_rejected intReg _
     ⟨PyObj.str "x", List.mem_cons_of_mem _ (List.mem_cons_self _ _), rfl⟩⟩

/-! ### The rvalue converter registry -/

/-- One registered rvalue converter, as pushed by
`converter::registry::push_back`: `convertible` is the probe (with
`Option.none` modelling a host exception escaping the probe, e.g. an
index error raised by `o[1]`), and `construct` builds the native value
(`Option.none` again modelling an escaping host exception). -/
structure RvalueConverter (τ : Type) where
  convertible : PyObj → Option Bool
  construct : PyObj → Option τ

/-- Modelled after the documented registry protocol of the external
binding library: converters pushed back earlier sit earlier in the chain
and are probed first; the first converter whose `convertible` succeeds
performs the construction; if every converter rejects, the conversion
fails with TypeConversion; a host exception escaping a probe or a
construction aborts the whole conversion. -/
def registry_lookup {τ : Type} : List (RvalueConverter τ) → PyObj → Except BridgeError τ
  | [], _ => Except.error BridgeError.typeConversion
  | c :: rest, o =>
    match c.convertible o with
    | Option.none => Except.error BridgeError.escapedException
    | some false => registry_lookup rest o
    | some true =>
      match c.construct o with
      | some v => Except.ok v
      | Option.none => Except.error BridgeError.escapedException

/-! ### Pair adapter: `pair_from_tuple` (graph_bind.cc lines 183-217) -/

/-- `o[i]`, i.e. `PyObject_GetItem`: defined on positional sequences with
the index in range; `Option.none` models the raised host exception (an
index error out of range, a type error on a non-indexable value). -/
def pyGetItem : PyObj → Nat → Option PyObj
  | PyObj.tuple xs, i => xs.get? i
  | PyObj.list xs, i => xs.get? i
  | _, _ => Option.none

/-- `pair_from_tuple<T1,T2>::convertible`: builds `extract<T1>(o[0])` and
`extract<T2>(o[1])` — each element access may raise, escaping the probe —
then accepts iff both checks pass. -/
def pair_from_tuple_convertible {α β : Type} (E1 : RegType α) (E2 : RegType β)
    (o : PyObj) : Option Bool :=
  match pyGetItem o 0 with
  | Option.none => Option.none
  | some x0 =>
    match pyGetItem o 1 with
    | Option.none => Option.none
    | some x1 => some (E1.check x0 && E2.check x1)

/-- `pair_from_tuple<T1,T2>::construct`: extracts `o[0]` into `first` and
`o[1]` into `second`; any failing access or extraction raises. -/
def pair_from_tuple_construct {α β : Type} (E1 : RegType α) (E2 : RegType β)
    (o : PyObj) : Option (α × β) :=
  match pyGetItem o 0 with
  | Option.none => Option.none
  | some x0 =>
    match E1.extract x0 with
    | Option.none => Option.none
    | some a =>
      match pyGetItem o 1 with
      | Option.none => Option.none
      | some x1 =>
        match E2.extract x1 with
        | Option.none => Option.none
        | some b => some (a, b)

/-- The registered converter for `pair<T1,T2>`. -/
def pair_from_tuple_converter {α β : Type} (E1 : RegType α) (E2 : RegType β) :
    RvalueConverter (α × β) where
  convertible := pair_from_tuple_convertible E1 E2
  construct := pair_from_tuple_construct E1 E2

/-- The full registry conversion of a host value to `pair<T1,T2>`:
`pair_from_tuple` is the only converter registered for that target type. -/
def pair_fromHost {α β : Type} (E1 : RegType α) (E2 : RegType β)
    (o : PyObj) : Except BridgeError (α × β) :=
  registry_lookup [pair_from_tuple_converter E1 E2] o

/-- C6 (failing input): probing the one-element host tuple `(1,)` against
`pair<size_t,size_t>` does not fail with TypeConversion as the claim
requires: `convertible` evaluates `o[1]`, whose index error escapes the
probe, so the conversion aborts with an escaped host exception instead. -/
theorem pair_short_tuple_escapes :
    pair_from_tuple_convertible sizeTReg sizeTReg (PyObj.tuple [PyObj.int 1]) =
        Option.none ∧
      pair_fromHost sizeTReg sizeTReg (PyObj.tuple [PyObj.int 1]) =
        Except.error BridgeError.escapedException ∧
      pair_fromHost sizeTReg sizeTReg (PyObj.tuple [PyObj.int 1]) ≠
        Except.error BridgeError.typeConversion := by
  refine ⟨rfl, rfl, ?_⟩
  intro h
  have := Except.error.inj (Eq.trans (Eq.symm rfl) h)
  exact BridgeError.noConfusion this

/-! ### Tagged-union adapter: `variant_from_python`
(graph_bind.cc lines 219-252, registered at lines 385-386) -/

/-- Modelled from the spec: `GraphInterface::deg_t` (declared in
`graph.hh`, which is not under `src/`) is the tagged-union of a degree
selector and an arbitrary native `boost::any` handle — exactly one
alternative is active at a time. -/
inductive DegT where
  | ofAny (tag : Nat)
  | ofDegree (d : Degree)
  deriving DecidableEq

/-- `variant_from_python<ValueType>::convertible`:
`extract<ValueType>(o).check()`; the probe itself cannot raise. -/
def variant_from_python_convertible {α : Type} (E : RegType α) (o : PyObj) : Option Bool :=
  some (E.check o)

/-- `variant_from_python<ValueType>::construct`: extracts the value and
stores it into the variant through the chosen alternative's injection. -/
def variant_from_python_construct {α : Type} (E : RegType α) (toDeg : α → DegT)
    (o : PyObj) : Option DegT :=
  (E.extract o).map toDeg

/-- The converter registered by `variant_from_python<ValueType>()` for
target type `GraphInterface::deg_t`. -/
def variant_from_python_converter {α : Type} (E : RegType α) (toDeg : α → DegT) :
    RvalueConverter DegT where
  convertible := variant_from_python_convertible E
  construct := variant_from_python_construct E toDeg

/-- The registry chain for `GraphInterface::deg_t` in registration order:
`variant_from_python<boost::any>()` first, then
`variant_from_python<GraphInterface::degree_t>()` (module init,
lines 385-386). -/
def deg_t_chain : List (RvalueConverter DegT) :=
  [variant_from_python_converter anyReg DegT.ofAny,
   variant_from_python_converter degreeReg DegT.ofDegree]

/-- C2: registry probing is first-match and deterministic: when a host
value is convertible to the first two registered alternatives, the
lookup always yields the first alternative's construction; and when every
registered alternative rejects the value, the lookup fails with
TypeConversion. -/
theorem registry_first_match {τ : Type} (A B : RvalueConverter τ)
    (rest : List (RvalueConverter τ)) (o : PyObj) (vA : τ)
    (hA : A.convertible o = some true) (hB : B.convertible o = some true)
    (hcA : A.construct o = some vA) :
    registry_lookup (A :: B :: rest) o = Except.ok vA ∧
      (∀ (chain : List (RvalueConverter τ)) (x : PyObj),
        (∀ c ∈ chain, c.convertible x = some false) →
        registry_lookup chain x = Except.error BridgeError.typeConversion) := by
  constructor
  · simp [registry_lookup, hA, hcA]
  · intro chain x hall
    induction chain with
    | nil => rfl
    | cons c rest2 ih =>
      have hc : c.convertible x = some false := hall c (List.mem_cons_self c rest2)
      simp only [registry_lookup, hc]
      exact ih (fun d hd => hall d (List.mem_cons_of_mem c hd))

/-- A converter accepting any host integer as the `boost::any`
alternative of the variant (concrete instantiation for the witness). -/
def intAsAnyConverter : RvalueConverter DegT :=
  variant_from_python_converter intReg (fun _ => DegT.ofAny 0)

/-- A converter accepting any host integer as a degree selector
(concrete instantiation for the witness). -/
def intAsDegreeConverter : RvalueConverter DegT :=
  variant_from_python_converter intReg (fun _ => DegT.ofDegree Degree.inDeg)

/-- Witness for C2 at a concrete input: the host integer `5` is
convertible to both candidate alternatives, and the lookup yields the
first-registered one; the second conjunct is exercised on the real
`deg_t` chain, which rejects a host string. -/
theorem registry_first_match_witness :
    (intAsAnyConverter.convertible (PyObj.int 5) = some true ∧
      intAsDegreeConverter.convertible (PyObj.int 5) = some true ∧
      intAsAnyConverter.construct (PyObj.int 5) = some (DegT.ofAny 0)) ∧
    (registry_lookup [intAsAnyConverter, intAsDegreeConverter] (PyObj.int 5) =
        Except.ok (DegT.ofAny 0) ∧
      registry_lookup deg_t_chain (PyObj.str "x") =
        Except.error BridgeError.typeConversion) :=
  ⟨⟨rfl, rfl, rfl⟩,
   ⟨(registry_first_match intAsAnyConverter intAsDegreeConverter []
       (PyObj.int 5) (DegT.ofAny 0) rfl rfl rfl).1,
    (registry_first_match intAsAnyConverter intAsDegreeConverter []
       (PyObj.int 5) (DegT.ofAny 0) rfl rfl rfl).2 deg_t_chain (PyObj.str "x")
      (by intro c hc
          rcases List.mem_cons.mp hc with h | h
          · subst h; rfl
          · rcases List.mem_cons.mp h with h2 | h2
            · subst h2; rfl
            · exact absurd h2 (List.not_mem_nil c))⟩⟩

/-! ### Error translator: `graph_exception_translator`
(graph_bind.cc lines 152-166, registered at lines 330-335) -/

/-- The static type of a thrown native exception: the three registered
kinds, or any other exception type the template could be instantiated
at. -/
inductive NativeExcType where
  | graphException
  | ioException
  | valueException
  | other (name : String)
  deriving DecidableEq

/-- The host error categories the translator can select
(`PyExc_RuntimeError`, `PyExc_IOError`, `PyExc_ValueError`). -/
inductive PyErrCategory where
  | runtimeError
  | ioError
  | valueError
  deriving DecidableEq

/-- The category-selection part of `graph_exception_translator`: the
local `PyObject* error` starts uninitialized (`Option.none`) and each of
the three `is_same` tests assigns it in turn; an exception type outside
the three kinds leaves it unset. -/
def translator_category (t : NativeExcType) : Option PyErrCategory :=
  let err0 : Option PyErrCategory := Option.none
  let err1 := if t = NativeExcType.graphException then some PyErrCategory.runtimeError else err0
  let err2 := if t = NativeExcType.ioException then some PyErrCategory.ioError else err1
  let err3 := if t = NativeExcType.valueException then some PyErrCategory.valueError else err2
  err3

/-- The host interpreter state the translator touches: the currently
raised error (category and display text), and the "message" attribute
set on each error category's class object. -/
structure PyState where
  raised : Option (PyErrCategory × String)
  messageAttr : PyErrCategory → Option String

/-- `PyObject_SetAttrString(error, "message", message)`. -/
def setMessageAttr (s : PyState) (cat : PyErrCategory) (m : String) : PyState :=
  { s with messageAttr := fun c => if c = cat then some m else s.messageAttr c }

/-- `graph_exception_translator<Exception>(e)`: select the category from
the static exception type, set the class's "message" attribute to
`e.what()`, then raise the error with `e.what()` as display text
(`PyErr_SetString`).  `Option.none` models the undefined behavior of
reading the category variable while unset. -/
def graph_exception_translator (t : NativeExcType) (what : String)
    (s : PyState) : Option PyState :=
  match translator_category t with
  | Option.none => Option.none
  | some cat =>
    some { setMessageAttr s cat what with raised := some (cat, what) }

/-- C3: each of the three native exception kinds, thrown with any
message, raises the host error of its mapped category, with both the
display text and the "message" attribute equal to the original message
verbatim. -/
theorem translator_maps_three_kinds (msg : String) (s : PyState) :
    (∃ s1, graph_exception_translator NativeExcType.graphException msg s = some s1 ∧
      s1.raised = some (PyErrCategory.runtimeError, msg) ∧
      s1.messageAttr PyErrCategory.runtimeError = some msg) ∧
    (∃ s2, graph_exception_translator NativeExcType.ioException msg s = some s2 ∧
      s2.raised = some (PyErrCategory.ioError, msg) ∧
      s2.messageAttr PyErrCategory.ioError = some msg) ∧
    (∃ s3, graph_exception_translator NativeExcType.valueException msg s = some s3 ∧
      s3.raised = some (PyErrCategory.valueError, msg) ∧
      s3.messageAttr PyErrCategory.valueError = some msg) := by
  refine ⟨⟨_, rfl, rfl, ?_⟩, ⟨_, rfl, rfl, ?_⟩, ⟨_, rfl, rfl, ?_⟩⟩ <;>
    simp [setMessageAttr]

/-- C4: whenever the translated exception's static type is one of the
three registered kinds, the category variable is assigned before the
raise, so the translator never reads it unset; for any other exception
type the variable is left unset and the raise is undefined. -/
theorem translator_category_exhaustive_on_registered :
    (∀ (t : NativeExcType) (msg : String) (s : PyState),
      (t = NativeExcType.graphException ∨ t = NativeExcType.ioException ∨
        t = NativeExcType.valueException) →
      ∃ cat s1, translator_category t = some cat ∧
        graph_exception_translator t msg s = some s1) ∧
    (∀ name : String,
      translator_category (NativeExcType.other name) = Option.none) := by
  constructor
  · intro t msg s ht
    rcases ht with rfl | rfl | rfl
    · exact ⟨PyErrCategory.runtimeError, _, rfl, rfl⟩
    · exact ⟨PyErrCategory.ioError, _, rfl, rfl⟩
    · exact ⟨PyErrCategory.valueError, _, rfl, rfl⟩
  · intro name
    rfl

/-- An initial host interpreter state with nothing raised and no
"message" attributes set. -/
def initPyState : PyState where
  raised := Option.none
  messageAttr := fun _ => Option.none

/-- Witness for C4 at a concrete input: the native `GraphException` kind
with message "boom". -/
theorem translator_category_exhaustive_witness :
    ∃ cat s1, translator_category NativeExcType.graphException = some cat ∧
      graph_exception_translator NativeExcType.graphException "boom" initPyState =
        some s1 :=
  translator_category_exhaustive_on_registered.1 NativeExcType.graphException
    "boom" initPyState (Or.inl rfl)

/-! ### Zero-copy numpy export: `get_array`
(graph_bind.cc lines 122-148) -/

/-- Modelled from the spec: `wrap_vector_not_owned<ValueType>` (declared
in `numpy_bind.hh`, which is not under `src/`) returns a non-owning
buffer view over the vector's backing storage — the view records only
the storage address, copying nothing. -/
structure NumpyView where
  addr : Nat
  deriving DecidableEq

/-- A heap of native vector storage, one buffer per address. -/
def Store (α : Type) : Type := Nat → List α

/-- `get_array` on the vector living at the given address: the exported
non-owning view. -/
def wrap_vector_not_owned (a : Nat) : NumpyView :=
  ⟨a⟩

/-- Writing one element through an exported numpy view: mutates the
buffer the view aliases, in place. -/
def view_write {α : Type} (s : Store α) (v : NumpyView) (i : Nat) (x : α) :
    Store α :=
  fun a => if a = v.addr then (s a).set i x else s a

/-- Reading one element of the native vector at an address through the
indexing-suite Sequence Adapter (`seq[i]`). -/
def seq_get {α : Type} (s : Store α) (a : Nat) (i : Nat) : Option α :=
  (s a).get? i

/-- C9: the exported view aliases the vector's backing storage: writing
an in-range element through `get_array`'s view changes the element
subsequently read back from the vector itself. -/
theorem view_write_aliases_vector {α : Type} (s : Store α) (a i : Nat) (x : α)
    (h : i < (s a).length) :
    seq_get (view_write s (wrap_vector_not_owned a) i x) a i = some x := by
  simp [seq_get, view_write, wrap_vector_not_owned, List.get?_set_eq_of_lt, h]

/-- A concrete two-buffer integer heap for the C9 witness. -/
def twoBufferStore : Store Int :=
  fun a => if a = 0 then [10, 20, 30] else [7]

/-- Witness for C9 at a concrete input: writing 99 at index 1 through
the view over buffer 0 and reading index 1 back from the vector. -/
theorem view_write_aliases_vector_witness :
    1 < (twoBufferStore 0).length ∧
      seq_get (view_write twoBufferStore (wrap_vector_not_owned 0) 1 99) 0 1 =
        some 99 :=
  ⟨by decide, view_write_aliases_vector twoBufferStore 0 1 99 (by decide)⟩

/-! ### Pickler slots: `set_pickler` / `set_unpickler`
(graph_bind.cc lines 273-281, registered at lines 403-404) -/

/-- The process-wide bridge globals: the two pickling slots
`graph_tool::object_pickler` and `graph_tool::object_unpickler`, plus
all remaining bridge state, abstracted as `rest`. -/
structure BridgeGlobals (σ : Type) where
  object_pickler : PyObj
  object_unpickler : PyObj
  rest : σ

/-- `set_pickler(o)`: assigns `graph_tool::object_pickler = o`. -/
def set_pickler {σ : Type} (o : PyObj) (g : BridgeGlobals σ) : BridgeGlobals σ :=
  { g with object_pickler := o }

/-- `set_unpickler(o)`: assigns `graph_tool::object_unpickler = o`. -/
def set_unpickler {σ : Type} (o : PyObj) (g : BridgeGlobals σ) : BridgeGlobals σ :=
  { g with object_unpickler := o }

/-- C10: `set_pickler` stores its argument into the pickler slot only,
leaving the unpickler slot and all other bridge state unchanged;
`set_unpickler` symmetrically stores into the unpickler slot only; and
each unconditionally overwrites whatever its own slot held before. -/
theorem pickler_slots_frame {σ : Type} (o o2 : PyObj) (g : BridgeGlobals σ) :
    (set_pickler o g).object_pickler = o ∧
      (set_pickler o g).object_unpickler = g.object_unpickler ∧
      (set_pickler o g).rest = g.rest ∧
      (set_unpickler o g).object_unpickler = o ∧
      (set_unpickler o g).object_pickler = g.object_pickler ∧
      (set_unpickler o g).rest = g.rest ∧
      set_pickler o (set_pickler o2 g) = set_pickler o g ∧
      set_unpickler o (set_unpickler o2 g) = set_unpickler o g :=
  ⟨rfl, rfl, rfl, rfl, rfl, rfl, rfl, rfl⟩
